import Mathlib

/-!
Shallow embedding of the what-if query core of the Course Schedule Optimizer
(`src/Product/query_translator.py`, `src/Product/solver_interface.py`,
`src/Product/explanation_agent.py`).

Python `dict.get(key)` lookups are modelled with `Option` fields whose
structure defaults mirror the `.get(key, default)` defaults of the source.
Python truthiness on strings (`if not s`) is modelled by `truthy`:
`None` and the empty string are falsy.  Exceptions raised by the source are
modelled as `Except` errors carrying the source's message text.
-/

/-- The closed `QueryType` enumeration (`query_translator.py`, lines 13-33). -/
inductive QueryType where
  | enforce_time_slot
  | enforce_day
  | enforce_room
  | enforce_before_time
  | enforce_after_time
  | enforce_no_lunch
  | enforce_consecutive
  | veto_time_slot
  | veto_day
  | veto_room
  | veto_lunch
  | veto_instructor_day
  | swap_time_slots
  | swap_rooms
deriving DecidableEq, Repr, Inhabited

/-- The `QueryType(query_type)` enum lookup: `none` models the `ValueError`
raised by the Python enum constructor for an unrecognized string. -/
def QueryType.ofString : String → Option QueryType
  | "enforce_time_slot" => some .enforce_time_slot
  | "enforce_day" => some .enforce_day
  | "enforce_room" => some .enforce_room
  | "enforce_before_time" => some .enforce_before_time
  | "enforce_after_time" => some .enforce_after_time
  | "enforce_no_lunch" => some .enforce_no_lunch
  | "enforce_consecutive" => some .enforce_consecutive
  | "veto_time_slot" => some .veto_time_slot
  | "veto_day" => some .veto_day
  | "veto_room" => some .veto_room
  | "veto_lunch" => some .veto_lunch
  | "veto_instructor_day" => some .veto_instructor_day
  | "swap_time_slots" => some .swap_time_slots
  | "swap_rooms" => some .swap_rooms
  | _ => none

/-- Model of `QueryConstraint` (`query_translator.py`, lines 36-64): all fields other
than the kind are optional and default to `None`. -/
structure QueryConstraint where
  query_type : QueryType
  course_id : Option String := none
  instructor_id : Option String := none
  week : Option Int := none
  day : Option String := none
  period_start : Option Int := none
  period_end : Option Int := none
  room_id : Option String := none
  course_id_2 : Option String := none
deriving DecidableEq, Repr, Inhabited

/-- One schedule assignment as read by `_find_assignment` and the swap
branch: `course_id`, `week`, `day`, `period_start` (the swap branch accesses
the last three with mandatory `[...]` indexing). -/
structure Assignment where
  course_id : String
  week : Int
  day : String
  period_start : Int
deriving DecidableEq, Repr

/-- The `current_schedule` value: `schedule.get("assignments", [])`. -/
structure Schedule where
  assignments : List Assignment := []
deriving DecidableEq, Repr

/-- A course record as read by the translator and validator: `c["id"]` is
mandatory, `c.get("instructor_id")` is optional. -/
structure Course where
  id : String
  instructor_id : Option String := none
deriving DecidableEq, Repr

/-- An instructor record as read by the validator: `i["id"]`. -/
structure Instructor where
  id : String
deriving DecidableEq, Repr

/-- The `term_config` dict as read by `_get_lunch_periods` and the no-lunch branch;
structure defaults mirror the `.get(key, default)` defaults of the source. -/
structure TermConfig where
  days : List String := []
  day_start_time : String := "08:00"
  lunch_start_time : String := "12:00"
  lunch_end_time : String := "12:30"
  period_length_minutes : Nat := 30
deriving DecidableEq, Repr

/-- The `input_data` dict as read by the translator and validator. -/
structure InputData where
  courses : List Course := []
  instructors : List Instructor := []
  term_config : TermConfig := {}
deriving DecidableEq, Repr

/-- The `params` dict of `parse_structured_query`: every key the function
reads, absent keys modelled as `none` / the `.get` default. -/
structure Params where
  course_id : Option String := none
  instructor_id : Option String := none
  week : Option Int := none
  day : Option String := none
  period_start : Option Int := none
  period_before : Option Int := none
  period_after : Option Int := none
  room_id : Option String := none
  course_id_1 : Option String := none
  course_id_2 : Option String := none
  current_schedule : Schedule := {}
deriving DecidableEq, Repr

/-- Translation-time errors; each constructor carries the exact message of
the `ValueError` raised by the source, grouped by the spec's taxonomy names. -/
inductive TranslateError where
  | unknownQueryKind (msg : String)
  | missingParameter (msg : String)
  | noMatchingEntity (msg : String)
  | noCurrentAssignment (msg : String)
deriving DecidableEq, Repr

/-- Python truthiness of an optional string: `None` and `""` are falsy. -/
def truthy : Option String → Bool
  | none => false
  | some s => !s.isEmpty

/-- Decimal value of a digit list, as Python `int` reads `"08"` as `8`. -/
def natOfDigits (l : List Char) : Nat :=
  l.foldl (fun acc c => acc * 10 + (c.toNat - 48)) 0

/-- Characters before the first `':'`. -/
def takeUntilColon : List Char → List Char
  | [] => []
  | c :: rest => if c = ':' then [] else c :: takeUntilColon rest

/-- Characters after the first `':'`. -/
def dropUntilColon : List Char → List Char
  | [] => []
  | c :: rest => if c = ':' then rest else dropUntilColon rest

/-- Model of `map(int, "HH:MM".split(":"))` for a well-formed `"HH:MM"` string.  The
source raises on malformed time strings (too few/many parts or non-digits);
the embedding reads zeros there (no claim involves a malformed time). -/
def parseHM (s : String) : Nat × Nat :=
  (natOfDigits (takeUntilColon s.data), natOfDigits (dropUntilColon s.data))

/-- Day start in minutes from midnight. -/
def day_start_minutes (tc : TermConfig) : Nat :=
  (parseHM tc.day_start_time).1 * 60 + (parseHM tc.day_start_time).2

/-- Lunch start in minutes from midnight. -/
def lunch_start_minutes (tc : TermConfig) : Nat :=
  (parseHM tc.lunch_start_time).1 * 60 + (parseHM tc.lunch_start_time).2

/-- Lunch end in minutes from midnight. -/
def lunch_end_minutes (tc : TermConfig) : Nat :=
  (parseHM tc.lunch_end_time).1 * 60 + (parseHM tc.lunch_end_time).2

/-- The `while current_time < lunch_end_minutes` loop of
`_get_lunch_periods`, written with explicit fuel so it is structurally
recursive and kernel-computable.  With `0 < len` the loop runs at most
`le - cur` times, so any fuel `≥ le - cur` reproduces the source loop
exactly; with `len = 0` the source loop never terminates (the embedding
then stops when fuel runs out — every theorem below assumes `0 < len`). -/
def lunchScanAux (len ls le : Nat) : Nat → Nat → Nat → List Nat
  | 0, _, _ => []
  | fuel + 1, cur, idx =>
    if cur < le then
      (if ls < cur + len ∧ cur < le then [idx] else []) ++
        lunchScanAux len ls le fuel (cur + len) (idx + 1)
    else []

/-- Model of `_get_lunch_periods` (`query_translator.py`, lines 373-400). -/
def get_lunch_periods (tc : TermConfig) : List Nat :=
  lunchScanAux tc.period_length_minutes (lunch_start_minutes tc)
    (lunch_end_minutes tc) (lunch_end_minutes tc) (day_start_minutes tc) 0

/-- Model of `_find_assignment` (`query_translator.py`, lines 402-408): first
assignment whose `course_id` matches, else `None`. -/
def find_assignment (course_id : String) (schedule : Schedule) :
    Option Assignment :=
  schedule.assignments.find? (fun a => a.course_id == course_id)

/-- The `veto_day` branch (`query_translator.py`, lines 141-173). -/
def veto_day_branch (params : Params) (input_data : InputData) :
    Except TranslateError (List QueryConstraint) :=
  if truthy params.course_id then
    .ok [{ query_type := .veto_day, course_id := params.course_id,
           day := params.day }]
  else if truthy params.instructor_id then
    let courses := input_data.courses.filter
      (fun c => c.instructor_id == params.instructor_id)
    if courses.isEmpty then
      .error (.noMatchingEntity
        ("No courses found for instructor " ++ params.instructor_id.getD ""))
    else
      .ok (courses.map (fun c =>
        { query_type := .veto_day, course_id := some c.id,
          day := params.day }))
  else
    .error (.missingParameter
      "Either course_id or instructor_id required for veto_day")

/-- The `enforce_no_lunch` branch (`query_translator.py`, lines 175-193): one
`veto_time_slot` constraint per `(day, lunch period)` pair, days outer. -/
def enforce_no_lunch_branch (params : Params) (input_data : InputData) :
    Except TranslateError (List QueryConstraint) :=
  let term_config := input_data.term_config
  let lunch_periods := get_lunch_periods term_config
  if truthy params.course_id then
    .ok (term_config.days.flatMap (fun day =>
      lunch_periods.map (fun period =>
        { query_type := .veto_time_slot, course_id := params.course_id,
          day := some day,
          period_start := some (Int.ofNat period) })))
  else
    .error (.missingParameter "course_id required for enforce_no_lunch")

/-- The `swap_time_slots` branch (`query_translator.py`, lines 232-278). -/
def swap_time_slots_branch (params : Params) :
    Except TranslateError (List QueryConstraint) :=
  if truthy params.course_id_1 = false ∨ truthy params.course_id_2 = false then
    .error (.missingParameter
      "Both course_id_1 and course_id_2 required for swap")
  else
    let c1 := params.course_id_1.getD ""
    let c2 := params.course_id_2.getD ""
    match find_assignment c1 params.current_schedule,
          find_assignment c2 params.current_schedule with
    | some a1, some a2 =>
      .ok [{ query_type := .enforce_time_slot, course_id := some c1,
             week := some a2.week, day := some a2.day,
             period_start := some a2.period_start },
           { query_type := .veto_time_slot, course_id := some c1,
             week := some a1.week, day := some a1.day,
             period_start := some a1.period_start },
           { query_type := .enforce_time_slot, course_id := some c2,
             week := some a1.week, day := some a1.day,
             period_start := some a1.period_start },
           { query_type := .veto_time_slot, course_id := some c2,
             week := some a2.week, day := some a2.day,
             period_start := some a2.period_start }]
    | _, _ =>
      .error (.noCurrentAssignment "Cannot find current assignments for swap")

/-- The `veto_instructor_day` branch (`query_translator.py`, lines 280-300):
note the absence of an empty-expansion check. -/
def veto_instructor_day_branch (params : Params) (input_data : InputData) :
    Except TranslateError (List QueryConstraint) :=
  if truthy params.instructor_id = false ∨ truthy params.day = false then
    .error (.missingParameter "instructor_id and day required")
  else
    .ok ((input_data.courses.filter
      (fun c => c.instructor_id == params.instructor_id)).map (fun c =>
        { query_type := .veto_day, course_id := some c.id,
          day := params.day }))

/-- Model of `parse_structured_query` (`query_translator.py`, lines 106-302).
Branches appear in source order; kinds of the enumeration that have no
branch fall through to `return constraints` with `constraints == []`. -/
def parse_structured_query (query_type : String) (params : Params)
    (input_data : InputData) : Except TranslateError (List QueryConstraint) :=
  match QueryType.ofString query_type with
  | none => .error (.unknownQueryKind ("Unknown query type: " ++ query_type))
  | some qtype =>
    match qtype with
    | .enforce_time_slot =>
      .ok [{ query_type := .enforce_time_slot, course_id := params.course_id,
             week := params.week, day := params.day,
             period_start := params.period_start }]
    | .veto_day => veto_day_branch params input_data
    | .enforce_no_lunch => enforce_no_lunch_branch params input_data
    | .veto_time_slot =>
      .ok [{ query_type := .veto_time_slot, course_id := params.course_id,
             week := params.week, day := params.day,
             period_start := params.period_start }]
    | .enforce_room =>
      .ok [{ query_type := .enforce_room, course_id := params.course_id,
             room_id := params.room_id }]
    | .enforce_before_time =>
      .ok [{ query_type := .enforce_before_time, course_id := params.course_id,
             period_end := params.period_before }]
    | .enforce_after_time =>
      .ok [{ query_type := .enforce_after_time, course_id := params.course_id,
             period_start := params.period_after }]
    | .swap_time_slots => swap_time_slots_branch params
    | .veto_instructor_day => veto_instructor_day_branch params input_data
    | _ => .ok []

/-- The `(course_id, week, day, period_start)` dict key built by
`validate_query_constraints` (`query_translator.py`, line 499). -/
abbrev SlotKey := Option String × Option Int × Option String × Option Int

/-- Key of one constraint. -/
def constraintKey (c : QueryConstraint) : SlotKey :=
  (c.course_id, c.week, c.day, c.period_start)

/-- Membership in the "enforce"-class (`enforce_time_slot`, `enforce_day`). -/
def isEnforceClass (c : QueryConstraint) : Bool :=
  c.query_type == .enforce_time_slot || c.query_type == .enforce_day

/-- Membership in the "veto"-class (`veto_time_slot`, `veto_day`). -/
def isVetoClass (c : QueryConstraint) : Bool :=
  c.query_type == .veto_time_slot || c.query_type == .veto_day

/-- First-occurrence deduplication: the key sequence of a Python dict built
by repeated `d[key] = v` assignment (later assignments overwrite the value
but keep the key's original position). -/
def dedupKeys : List SlotKey → List SlotKey
  | [] => []
  | k :: rest => k :: (dedupKeys rest).filter (fun k2 => k2 ≠ k)

/-- Keys of the `enforce_slots` dict, in insertion order. -/
def enforceKeys (cs : List QueryConstraint) : List SlotKey :=
  dedupKeys ((cs.filter isEnforceClass).map constraintKey)

/-- Keys of the `veto_slots` dict, in insertion order. -/
def vetoKeys (cs : List QueryConstraint) : List SlotKey :=
  dedupKeys ((cs.filter isVetoClass).map constraintKey)

/-- Python `f"{v}"` on an optional string: `None` renders as `"None"`. -/
def fmtOptStr : Option String → String
  | none => "None"
  | some s => s

/-- Python `f"{v}"` on an optional int: `None` renders as `"None"`. -/
def fmtOptInt : Option Int → String
  | none => "None"
  | some n => toString n

/-- The contradiction error message (`query_translator.py`, lines 509-512):
the two adjacent f-string literals of the source concatenate to one line. -/
def contradictionMsg (k : SlotKey) : String :=
  "Contradictory constraints: Cannot both enforce and veto " ++ fmtOptStr k.1 ++
    " on " ++ fmtOptStr k.2.2.1 ++ " at period " ++ fmtOptInt k.2.2.2

/-- The per-constraint referential checks (`query_translator.py`,
lines 518-522).  `if constraint.course_id and ...` uses Python truthiness:
a `None` or empty-string identifier is skipped. -/
def refErrorsFor (validCourseIds validInstructorIds : List String)
    (c : QueryConstraint) : List String :=
  (match c.course_id with
   | some s => if s ≠ "" ∧ s ∉ validCourseIds then ["Unknown course ID: " ++ s] else []
   | none => []) ++
  (match c.instructor_id with
   | some s =>
     if s ≠ "" ∧ s ∉ validInstructorIds then ["Unknown instructor ID: " ++ s] else []
   | none => [])

/-- Model of `validate_query_constraints` (`query_translator.py`, lines 482-524). -/
def validate_query_constraints (constraints : List QueryConstraint)
    (input_data : InputData) : Bool × List String :=
  let eks := enforceKeys constraints
  let vks := vetoKeys constraints
  let contradictionErrors :=
    (eks.filter (fun k => decide (k ∈ vks))).map contradictionMsg
  let validCourseIds := input_data.courses.map Course.id
  let validInstructorIds := input_data.instructors.map Instructor.id
  let refErrors := constraints.flatMap
    (refErrorsFor validCourseIds validInstructorIds)
  let errors := contradictionErrors ++ refErrors
  (errors.isEmpty, errors)

/-!  What-if orchestration (`solver_interface.py`, lines 516-592). -/

/-- One IIS constraint record as reported by the oracle
(`explanation_agent.py` reads `id`, `type`, `description`, `in_iis`, all
with `.get` defaults). -/
structure IISRecord where
  id : Option String := none
  type : Option String := none
  description : Option String := none
  in_iis : Option Bool := none
deriving DecidableEq, Repr, Inhabited

/-- A Python exception caught by `_solve_what_if_julia`: message plus the
formatted traceback. -/
structure PyExn where
  msg : String
  traceback : String
deriving DecidableEq, Repr

/-- The `diagnostics` dict attached to an error result. -/
structure DiagPayload where
  error : String
  traceback : String
deriving DecidableEq, Repr

/-- The oracle's response dict as read (and returned unchanged) by
`_solve_what_if_julia`; `_julia_to_python` is a pure marshalling walk and is
modelled as the identity. -/
structure WhatIfResponse where
  status : Option String := none
  query_feasible : Option Bool := none
  explanation : Option String := none
  diagnostics : Option DiagPayload := none
  alternative_objective : Option Int := none
  iis : List IISRecord := []
deriving DecidableEq, Repr

/-- The error result built in the `except` branch of `_solve_what_if_julia`
(`solver_interface.py`, lines 584-592). -/
def whatIfErrorResult (e : PyExn) : WhatIfResponse :=
  { status := some "error", query_feasible := some false,
    explanation := some ("What-if analysis error: " ++ e.msg),
    diagnostics := some { error := e.msg, traceback := e.traceback } }

/-- The oracle, modelled as the outcome of its k-th invocation: either a
response dict or a raised exception. -/
def Oracle : Type := Nat → Except PyExn WhatIfResponse

/-- Model of `_solve_what_if_julia` (`solver_interface.py`, lines 544-592): one call
to `self.julia.solve_what_if_query` at call index `k`; the returned index
counts how many oracle calls have now been made.  A successful response is
returned unchanged (the source only reads `status` for logging); an
exception yields the `"error"`-status dict. -/
def solve_what_if_julia (oracle : Oracle) (k : Nat) : WhatIfResponse × Nat :=
  match oracle k with
  | .ok r => (r, k + 1)
  | .error e => (whatIfErrorResult e, k + 1)

/-- The mock-mode result (`solver_interface.py`, lines 537-542). -/
def mockWhatIfResult : WhatIfResponse :=
  { status := some "not_supported", query_feasible := some false,
    explanation := some "What-if analysis not supported in mock mode" }

/-- Model of `solve_what_if` (`solver_interface.py`, lines 516-542). -/
def solve_what_if (use_julia_solver : Bool) (oracle : Oracle) (k : Nat) :
    WhatIfResponse × Nat :=
  if use_julia_solver then solve_what_if_julia oracle k
  else (mockWhatIfResult, k)

/-!  Reason-graph construction (`explanation_agent.py`, lines 1210-1315). -/

/-- One reason node. -/
structure Reason where
  id : String := ""
  type : String := ""
  text : String := ""
  in_iis : Bool := true
deriving DecidableEq, Repr, Inhabited

/-- One edge.  The source dict keys are `"from"`, `"to"`, `"relationship"`;
`from` is a Lean keyword, so the fields are named `src` and `dst`. -/
structure Edge where
  src : String
  dst : String
  relationship : String
deriving DecidableEq, Repr, Inhabited

/-- One node of the visualization projection. -/
structure VizNode where
  id : String
  label : String
  type : String
  group : String
deriving DecidableEq, Repr

/-- One edge of the visualization projection (source keys `"source"`,
`"target"`, `"label"`). -/
structure VizEdge where
  source : String
  target : String
  label : String
deriving DecidableEq, Repr

/-- The visualization projection dict. -/
structure VizData where
  nodes : List VizNode := []
  edges : List VizEdge := []
deriving DecidableEq, Repr

/-- The graph returned by `build_graph_of_reasons`. -/
structure ReasonGraph where
  query : String
  reasons : List Reason
  edges : List Edge
  num_reasons : Nat
  is_connected : Bool
  visualization_data : VizData
deriving DecidableEq, Repr

/-- Python `pat in s` on strings: substring containment. -/
def strContains (s pat : String) : Bool :=
  s.data.tails.any (fun t => pat.data.isPrefixOf t)

/-- The fixed scope-keyword vocabulary (`explanation_agent.py`, line 1288). -/
def scope_keywords : List String :=
  ["course", "instructor", "room", "time", "week", "day"]

/-- Model of `_constraints_share_scope` (`explanation_agent.py`, lines 1280-1293). -/
def constraints_share_scope (c1 c2 : IISRecord) : Bool :=
  let desc1 := (c1.description.getD "").toLower
  let desc2 := (c2.description.getD "").toLower
  scope_keywords.any (fun kw => strContains desc1 kw && strContains desc2 kw)

/-- Node id of record `rec` at position `i`: `constraint.get("id", f"c{i}")`. -/
def nodeIdOf (rec : IISRecord) (i : Nat) : String :=
  rec.id.getD ("c" ++ toString i)

/-- Model of `_constraint_to_reason` (`explanation_agent.py`, lines 1261-1278); the
unused `input_context` parameter is dropped. -/
def constraint_to_reason (rec : IISRecord) : String :=
  let constraint_type := rec.type.getD ""
  let description := rec.description.getD ""
  if constraint_type = "minimality" then
    "The new schedule must achieve at least the same objective value as the original optimal schedule"
  else if constraint_type.startsWith "query_" then
    "Your requested change: " ++ description
  else if constraint_type = "enforce_time_slot" then
    "Required: " ++ description
  else if constraint_type = "veto_time_slot" then
    "Forbidden: " ++ description
  else if constraint_type = "veto_day" then
    "Cannot schedule on requested day: " ++ description
  else
    description

/-- The reason node built for record `rec` at position `i`
(`explanation_agent.py`, lines 1228-1240). -/
def reasonOf (rec : IISRecord) (i : Nat) : Reason :=
  { id := nodeIdOf rec i, type := rec.type.getD "unknown",
    text := constraint_to_reason rec, in_iis := rec.in_iis.getD true }

/-- Model of `_create_graph_visualization_json` (`explanation_agent.py`,
lines 1295-1315). -/
def create_graph_visualization_json (reasons : List Reason)
    (edges : List Edge) : VizData :=
  { nodes := reasons.map (fun r =>
      { id := r.id, label := r.text, type := r.type,
        group := if r.type.startsWith "query" then "query"
                 else if r.type = "minimality" then "minimality"
                 else "constraint" }),
    edges := edges.map (fun e =>
      { source := e.src, target := e.dst, label := e.relationship }) }

/-- Model of `build_graph_of_reasons` (`explanation_agent.py`, lines 1210-1259).
The double loop `for i, c in enumerate(iis)` / `for j, other in
enumerate(iis[i+1:], start=i+1)` is written over index ranges; `getD` with
the all-defaults record stands for the in-range list access. -/
def build_graph_of_reasons (iis_constraints : List IISRecord)
    (query : String) : ReasonGraph :=
  let reasons := (List.range iis_constraints.length).map
    (fun i => reasonOf (iis_constraints.getD i {}) i)
  let edges := (List.range iis_constraints.length).flatMap (fun i =>
    ((List.range iis_constraints.length).drop (i + 1)).filterMap (fun j =>
      if constraints_share_scope (iis_constraints.getD i {})
          (iis_constraints.getD j {}) then
        some { src := nodeIdOf (iis_constraints.getD i {}) i,
               dst := nodeIdOf (iis_constraints.getD j {}) j,
               relationship := "shares_variables" }
      else none))
  { query := query, reasons := reasons, edges := edges,
    num_reasons := reasons.length, is_connected := 0 < edges.length,
    visualization_data := create_graph_visualization_json reasons edges }

/-!  ## Theorems -/

/-- C1: a `swap_time_slots` query with courses A and B yields exactly four
constraints in order — enforce A into B's current `(week, day, period_start)`,
veto A from A's own slot, enforce B into A's slot, veto B from B's own slot —
with the current slots read from the caller-supplied current schedule; if
either course has no assignment there, translation fails with the
`NoCurrentAssignment` error instead of returning constraints. -/
theorem swap_time_slots_decomposition :
    (∀ (params : Params) (input_data : InputData) (c1 c2 : String)
       (a1 a2 : Assignment),
       params.course_id_1 = some c1 → c1 ≠ "" →
       params.course_id_2 = some c2 → c2 ≠ "" →
       find_assignment c1 params.current_schedule = some a1 →
       find_assignment c2 params.current_schedule = some a2 →
       parse_structured_query "swap_time_slots" params input_data =
         .ok [{ query_type := .enforce_time_slot, course_id := some c1,
                week := some a2.week, day := some a2.day,
                period_start := some a2.period_start },
              { query_type := .veto_time_slot, course_id := some c1,
                week := some a1.week, day := some a1.day,
                period_start := some a1.period_start },
              { query_type := .enforce_time_slot, course_id := some c2,
                week := some a1.week, day := some a1.day,
                period_start := some a1.period_start },
              { query_type := .veto_time_slot, course_id := some c2,
                week := some a2.week, day := some a2.day,
                period_start := some a2.period_start }]) ∧
    (∀ (params : Params) (input_data : InputData),
       truthy params.course_id_1 = true → truthy params.course_id_2 = true →
       (find_assignment (params.course_id_1.getD "") params.current_schedule = none ∨
        find_assignment (params.course_id_2.getD "") params.current_schedule = none) →
       parse_structured_query "swap_time_slots" params input_data =
         .error (.noCurrentAssignment "Cannot find current assignments for swap")) := by
  constructor
  · intro params input_data c1 c2 a1 a2 h1 hne1 h2 hne2 hf1 hf2
    have hstep : parse_structured_query "swap_time_slots" params input_data =
        swap_time_slots_branch params := rfl
    rw [hstep, swap_time_slots_branch, h1, h2]
    simp [truthy, String.isEmpty_iff, hne1, hne2, hf1, hf2]
  · intro params input_data ht1 ht2 hn
    have hstep : parse_structured_query "swap_time_slots" params input_data =
        swap_time_slots_branch params := rfl
    rw [hstep, swap_time_slots_branch]
    rcases hn with h | h
    · simp [ht1, ht2, h]
    · cases hfa : find_assignment (params.course_id_1.getD "") params.current_schedule <;>
        simp [ht1, ht2, h, hfa]

/-- Witness for C1: both halves applied at a concrete two-course schedule. -/
theorem swap_time_slots_decomposition_witness :
    parse_structured_query "swap_time_slots"
      { course_id_1 := some "A", course_id_2 := some "B",
        current_schedule :=
          { assignments := [⟨"A", 1, "Mon", 2⟩, ⟨"B", 1, "Tue", 5⟩] } } {} =
      .ok [{ query_type := .enforce_time_slot, course_id := some "A",
             week := some 1, day := some "Tue", period_start := some 5 },
           { query_type := .veto_time_slot, course_id := some "A",
             week := some 1, day := some "Mon", period_start := some 2 },
           { query_type := .enforce_time_slot, course_id := some "B",
             week := some 1, day := some "Mon", period_start := some 2 },
           { query_type := .veto_time_slot, course_id := some "B",
             week := some 1, day := some "Tue", period_start := some 5 }] ∧
    parse_structured_query "swap_time_slots"
      { course_id_1 := some "A", course_id_2 := some "C",
        current_schedule := { assignments := [⟨"A", 1, "Mon", 2⟩] } } {} =
      .error (.noCurrentAssignment "Cannot find current assignments for swap") := by
  constructor
  · exact swap_time_slots_decomposition.1 _ {} "A" "B" ⟨"A", 1, "Mon", 2⟩
      ⟨"B", 1, "Tue", 5⟩ rfl (by decide) rfl (by decide) rfl rfl
  · exact swap_time_slots_decomposition.2 _ {} rfl rfl (Or.inr rfl)

/-- C2 counterexample: an `enforce_time_slot` query with no `course_id`,
`day` or `period_start` does not fail with `MissingParameter`; it succeeds
and produces one constraint whose fields are all empty. -/
theorem enforce_time_slot_missing_params_accepted :
    parse_structured_query "enforce_time_slot" {} {} =
      .ok [{ query_type := .enforce_time_slot, course_id := none,
             week := none, day := none, period_start := none }] := rfl

/-- C2 (amended): only four kinds check required parameters — `veto_day`
(one of `course_id`/`instructor_id`), `enforce_no_lunch` (`course_id`),
`swap_time_slots` (both course ids), `veto_instructor_day` (`instructor_id`
and `day`) — and fail with `MissingParameter` when those are absent or
empty; the remaining handled kinds (`enforce_time_slot`, `veto_time_slot`,
`enforce_room`, `enforce_before_time`, `enforce_after_time`) accept absent
fields and produce one constraint with those fields empty. -/
theorem missing_parameter_checks :
    (∀ (p : Params) (i : InputData),
       truthy p.course_id = false → truthy p.instructor_id = false →
       parse_structured_query "veto_day" p i =
         .error (.missingParameter
           "Either course_id or instructor_id required for veto_day")) ∧
    (∀ (p : Params) (i : InputData),
       truthy p.course_id = false →
       parse_structured_query "enforce_no_lunch" p i =
         .error (.missingParameter "course_id required for enforce_no_lunch")) ∧
    (∀ (p : Params) (i : InputData),
       truthy p.course_id_1 = false ∨ truthy p.course_id_2 = false →
       parse_structured_query "swap_time_slots" p i =
         .error (.missingParameter
           "Both course_id_1 and course_id_2 required for swap")) ∧
    (∀ (p : Params) (i : InputData),
       truthy p.instructor_id = false ∨ truthy p.day = false →
       parse_structured_query "veto_instructor_day" p i =
         .error (.missingParameter "instructor_id and day required")) ∧
    (∀ (p : Params) (i : InputData),
       parse_structured_query "enforce_time_slot" p i =
         .ok [{ query_type := .enforce_time_slot, course_id := p.course_id,
                week := p.week, day := p.day,
                period_start := p.period_start }]) ∧
    (∀ (p : Params) (i : InputData),
       parse_structured_query "veto_time_slot" p i =
         .ok [{ query_type := .veto_time_slot, course_id := p.course_id,
                week := p.week, day := p.day,
                period_start := p.period_start }]) ∧
    (∀ (p : Params) (i : InputData),
       parse_structured_query "enforce_room" p i =
         .ok [{ query_type := .enforce_room, course_id := p.course_id,
                room_id := p.room_id }]) ∧
    (∀ (p : Params) (i : InputData),
       parse_structured_query "enforce_before_time" p i =
         .ok [{ query_type := .enforce_before_time, course_id := p.course_id,
                period_end := p.period_before }]) ∧
    (∀ (p : Params) (i : InputData),
       parse_structured_query "enforce_after_time" p i =
         .ok [{ query_type := .enforce_after_time, course_id := p.course_id,
                period_start := p.period_after }]) := by
  refine ⟨?_, ?_, ?_, ?_, ?_, ?_, ?_, ?_, ?_⟩
  · intro p i hc hi
    have hstep : parse_structured_query "veto_day" p i = veto_day_branch p i := rfl
    rw [hstep, veto_day_branch]
    simp [hc, hi]
  · intro p i hc
    have hstep : parse_structured_query "enforce_no_lunch" p i =
        enforce_no_lunch_branch p i := rfl
    rw [hstep, enforce_no_lunch_branch]
    simp [hc]
  · intro p i hn
    have hstep : parse_structured_query "swap_time_slots" p i =
        swap_time_slots_branch p := rfl
    rw [hstep, swap_time_slots_branch]
    rcases hn with h | h <;> simp [h]
  · intro p i hn
    have hstep : parse_structured_query "veto_instructor_day" p i =
        veto_instructor_day_branch p i := rfl
    rw [hstep, veto_instructor_day_branch]
    rcases hn with h | h <;> simp [h]
  · intro p i
    rfl
  · intro p i
    rfl
  · intro p i
    rfl
  · intro p i
    rfl
  · intro p i
    rfl

/-- Witness for C2 (amended): the four checking kinds all fail on empty
parameters. -/
theorem missing_parameter_checks_witness :
    parse_structured_query "veto_day" {} {} =
      .error (.missingParameter
        "Either course_id or instructor_id required for veto_day") ∧
    parse_structured_query "enforce_no_lunch" {} {} =
      .error (.missingParameter "course_id required for enforce_no_lunch") ∧
    parse_structured_query "swap_time_slots" {} {} =
      .error (.missingParameter
        "Both course_id_1 and course_id_2 required for swap") ∧
    parse_structured_query "veto_instructor_day" {} {} =
      .error (.missingParameter "instructor_id and day required") := by
  refine ⟨missing_parameter_checks.1 {} {} rfl rfl,
    missing_parameter_checks.2.1 {} {} rfl,
    missing_parameter_checks.2.2.1 {} {} (Or.inl rfl),
    missing_parameter_checks.2.2.2.1 {} {} (Or.inl rfl)⟩

/-- C3 counterexample: an oracle response whose status is neither
`feasible_query` nor `infeasible_query` (here `"unknown"`) is returned with
its own status, not rewritten to `error`. -/
theorem unknown_oracle_status_passthrough :
    (solve_what_if true (fun _ => Except.ok { status := some "unknown" }) 0).1.status
        = some "unknown" ∧
    (solve_what_if true (fun _ => Except.ok { status := some "unknown" }) 0).1.status
        ≠ some "error" := by
  exact ⟨rfl, by decide⟩

/-- C3 (amended): the what-if path calls the oracle exactly once per call
with no retry; a raised oracle failure is surfaced as a result with status
`error` and the oracle's diagnostic attached; every successful oracle
response — whatever its status — is passed through unmodified (its status is
preserved, not rewritten to `error`). -/
theorem solve_what_if_oracle_contract :
    ∀ (oracle : Oracle) (k : Nat),
      (solve_what_if true oracle k).2 = k + 1 ∧
      (∀ r, oracle k = .ok r → (solve_what_if true oracle k).1 = r) ∧
      (∀ e, oracle k = .error e →
        (solve_what_if true oracle k).1 = whatIfErrorResult e ∧
        (solve_what_if true oracle k).1.status = some "error" ∧
        (solve_what_if true oracle k).1.diagnostics =
          some { error := e.msg, traceback := e.traceback }) := by
  intro oracle k
  refine ⟨?_, ?_, ?_⟩
  · cases h : oracle k <;> simp [solve_what_if, solve_what_if_julia, h]
  · intro r hr
    simp [solve_what_if, solve_what_if_julia, hr]
  · intro e he
    refine ⟨?_, ?_, ?_⟩ <;>
      simp [solve_what_if, solve_what_if_julia, he, whatIfErrorResult]

/-- Witness for C3 (amended): a concrete failing oracle is called once and
surfaced as an `error` result. -/
theorem solve_what_if_oracle_contract_witness :
    (solve_what_if true (fun _ => Except.error ⟨"boom", "tb"⟩) 0).2 = 1 ∧
    (solve_what_if true (fun _ => Except.error ⟨"boom", "tb"⟩) 0).1.status
      = some "error" := by
  exact ⟨(solve_what_if_oracle_contract (fun _ => Except.error ⟨"boom", "tb"⟩) 0).1,
    ((solve_what_if_oracle_contract (fun _ => Except.error ⟨"boom", "tb"⟩) 0).2.2
      ⟨"boom", "tb"⟩ rfl).2.1⟩

/-- C8: structured-query translation is deterministic — identical
`(query_type, parameters, instance)` inputs always yield the identical
ordered constraint sequence (same length and same constraint at every
position).  The embedding is a pure function of exactly these three inputs,
so determinism is congruence. -/
theorem parse_structured_query_deterministic :
    ∀ (qt qt' : String) (p p' : Params) (i i' : InputData),
      qt = qt' → p = p' → i = i' →
      parse_structured_query qt p i = parse_structured_query qt' p' i' ∧
      (∀ cs cs', parse_structured_query qt p i = .ok cs →
        parse_structured_query qt' p' i' = .ok cs' →
        cs.length = cs'.length ∧ ∀ n : Nat, cs.getD n default = cs'.getD n default) := by
  intro qt qt' p p' i i' h1 h2 h3
  subst h1; subst h2; subst h3
  refine ⟨rfl, ?_⟩
  intro cs cs' hcs hcs'
  rw [hcs] at hcs'
  injection hcs' with h
  subst h
  exact ⟨rfl, fun _ => rfl⟩

/-- Witness for C8: two identical concrete calls agree. -/
theorem parse_structured_query_deterministic_witness :
    parse_structured_query "veto_day" { course_id := some "A" } {} =
      parse_structured_query "veto_day" { course_id := some "A" } {} :=
  (parse_structured_query_deterministic "veto_day" "veto_day"
    { course_id := some "A" } { course_id := some "A" } {} {} rfl rfl rfl).1

/-- C10: the five enumerated kinds with no expansion branch in the
translator return the empty constraint sequence without raising, for any
parameters and any instance. -/
theorem unhandled_kinds_empty :
    (∀ (p : Params) (i : InputData),
      parse_structured_query "enforce_day" p i = .ok []) ∧
    (∀ (p : Params) (i : InputData),
      parse_structured_query "enforce_consecutive" p i = .ok []) ∧
    (∀ (p : Params) (i : InputData),
      parse_structured_query "veto_room" p i = .ok []) ∧
    (∀ (p : Params) (i : InputData),
      parse_structured_query "veto_lunch" p i = .ok []) ∧
    (∀ (p : Params) (i : InputData),
      parse_structured_query "swap_rooms" p i = .ok []) :=
  ⟨fun _ _ => rfl, fun _ _ => rfl, fun _ _ => rfl, fun _ _ => rfl, fun _ _ => rfl⟩

/-- Helper: membership characterization of the lunch-period scan.  With a
positive period length and enough fuel, index `j` is produced exactly when
its period interval `[cur + k*len, cur + k*len + len)` strictly overlaps the
lunch window `[ls, le)`. -/
theorem mem_lunchScanAux (len ls le : Nat) (hlen : 0 < len) :
    ∀ (fuel cur idx : Nat), le ≤ cur + fuel →
      ∀ j, j ∈ lunchScanAux len ls le fuel cur idx ↔
        ∃ k, j = idx + k ∧ cur + k * len < le ∧ ls < cur + k * len + len := by
  intro fuel
  induction fuel with
  | zero =>
    intro cur idx hfuel j
    simp only [lunchScanAux, List.not_mem_nil, false_iff]
    rintro ⟨k, -, hk, -⟩
    omega
  | succ fuel ih =>
    intro cur idx hfuel j
    simp only [lunchScanAux]
    by_cases hcur : cur < le
    · rw [if_pos hcur]
      rw [List.mem_append]
      have hrec := ih (cur + len) (idx + 1) (by omega) j
      constructor
      · rintro (hhead | htail)
        · by_cases hc : ls < cur + len ∧ cur < le
          · rw [if_pos hc] at hhead
            simp only [List.mem_singleton] at hhead
            exact ⟨0, by omega, by simpa using hcur, by simpa using hc.1⟩
          · rw [if_neg hc] at hhead
            simp at hhead
        · obtain ⟨k, hj, h1, h2⟩ := hrec.mp htail
          refine ⟨k + 1, by omega, ?_, ?_⟩
          · have : cur + (k + 1) * len = cur + len + k * len := by ring
            omega
          · have : cur + (k + 1) * len = cur + len + k * len := by ring
            omega
      · rintro ⟨k, hj, h1, h2⟩
        cases k with
        | zero =>
          left
          rw [if_pos ⟨by simpa using h2, hcur⟩]
          simp [hj]
        | succ k =>
          right
          refine hrec.mpr ⟨k, by omega, ?_, ?_⟩
          · have : cur + (k + 1) * len = cur + len + k * len := by ring
            omega
          · have : cur + (k + 1) * len = cur + len + k * len := by ring
            omega
    · rw [if_neg hcur]
      simp only [List.not_mem_nil, false_iff]
      rintro ⟨k, -, hk, -⟩
      omega

/-- Helper: membership in `get_lunch_periods` is exactly strict overlap of
the period's minute interval with the lunch window. -/
theorem mem_get_lunch_periods (tc : TermConfig)
    (hlen : 0 < tc.period_length_minutes) (p : Nat) :
    p ∈ get_lunch_periods tc ↔
      day_start_minutes tc + p * tc.period_length_minutes < lunch_end_minutes tc ∧
      lunch_start_minutes tc <
        day_start_minutes tc + p * tc.period_length_minutes +
          tc.period_length_minutes := by
  unfold get_lunch_periods
  rw [mem_lunchScanAux tc.period_length_minutes (lunch_start_minutes tc)
    (lunch_end_minutes tc) hlen (lunch_end_minutes tc) (day_start_minutes tc) 0
    (by omega) p]
  constructor
  · rintro ⟨k, hk, h1, h2⟩
    subst hk
    simpa using ⟨h1, h2⟩
  · rintro ⟨h1, h2⟩
    exact ⟨p, by omega, h1, h2⟩

/-- Helper: a list with a member is not `isEmpty`. -/
theorem isEmpty_false_of_mem {α : Type} {l : List α} {a : α} (h : a ∈ l) :
    l.isEmpty = false := by
  cases l with
  | nil => cases h
  | cons x xs => rfl

/-- Helper: the validator's boolean is exactly emptiness of its error list. -/
theorem validate_fst_eq_isEmpty (cs : List QueryConstraint) (inst : InputData) :
    (validate_query_constraints cs inst).1 =
      (validate_query_constraints cs inst).2.isEmpty := rfl

/-- C4: an `enforce_no_lunch` query yields, per day of the term
configuration, one `veto_time_slot` constraint per lunch period; the lunch
periods are exactly the indices whose `[start, start+period_length)` minute
interval strictly overlaps `[lunch_start, lunch_end)`; with the default
config (day start 08:00, 30-minute periods, lunch 12:00-12:30) index 8 is
selected and index 7 is not. -/
theorem enforce_no_lunch_expansion :
    (∀ (params : Params) (input_data : InputData),
       truthy params.course_id = true →
       parse_structured_query "enforce_no_lunch" params input_data =
         .ok (input_data.term_config.days.flatMap (fun day =>
           (get_lunch_periods input_data.term_config).map (fun period =>
             { query_type := .veto_time_slot, course_id := params.course_id,
               day := some day,
               period_start := some (Int.ofNat period) })))) ∧
    (∀ (tc : TermConfig), 0 < tc.period_length_minutes →
       ∀ p : Nat, p ∈ get_lunch_periods tc ↔
         (day_start_minutes tc + p * tc.period_length_minutes <
            lunch_end_minutes tc ∧
          lunch_start_minutes tc <
            day_start_minutes tc + p * tc.period_length_minutes +
              tc.period_length_minutes)) ∧
    (8 ∈ get_lunch_periods {} ∧ 7 ∉ get_lunch_periods {}) := by
  refine ⟨?_, ?_, by decide⟩
  · intro params input_data hc
    have hstep : parse_structured_query "enforce_no_lunch" params input_data =
        enforce_no_lunch_branch params input_data := rfl
    rw [hstep, enforce_no_lunch_branch]
    simp [hc]
  · intro tc hlen p
    exact mem_get_lunch_periods tc hlen p

/-- Witness for C4: a concrete two-day instance expands to one veto per day
at period 8, and period 8's membership follows from the overlap rule. -/
theorem enforce_no_lunch_expansion_witness :
    parse_structured_query "enforce_no_lunch" { course_id := some "A" }
        { term_config := { days := ["Mon", "Tue"] } } =
      .ok [{ query_type := .veto_time_slot, course_id := some "A",
             day := some "Mon", period_start := some 8 },
           { query_type := .veto_time_slot, course_id := some "A",
             day := some "Tue", period_start := some 8 }] ∧
    8 ∈ get_lunch_periods {} := by
  constructor
  · rw [enforce_no_lunch_expansion.1 { course_id := some "A" }
      { term_config := { days := ["Mon", "Tue"] } } rfl]
    rfl
  · exact (enforce_no_lunch_expansion.2.1 {} (by decide) 8).mpr (by decide)

/-- Helper: first-occurrence deduplication preserves membership. -/
theorem mem_dedupKeys (k : SlotKey) : ∀ l, k ∈ dedupKeys l ↔ k ∈ l := by
  intro l
  induction l with
  | nil => simp [dedupKeys]
  | cons a rest ih =>
    simp only [dedupKeys, List.mem_cons]
    constructor
    · rintro (h | h)
      · exact Or.inl h
      · exact Or.inr (ih.mp (List.mem_of_mem_filter h))
    · rintro (h | h)
      · exact Or.inl h
      · by_cases hk : k = a
        · exact Or.inl hk
        · exact Or.inr (List.mem_filter.mpr ⟨ih.mpr h, by simpa using hk⟩)

/-- C5 counterexample: an enforce and a veto on the same course, day and
period but different weeks do not collide (the dict key includes the week),
so validation passes. -/
theorem contradiction_detection_week_mismatch :
    validate_query_constraints
      [{ query_type := .enforce_time_slot, course_id := some "A",
         week := some 1, day := some "Mon", period_start := some 3 },
       { query_type := .veto_time_slot, course_id := some "A",
         week := none, day := some "Mon", period_start := some 3 }]
      { courses := [{ id := "A" }] } = (true, []) := by decide

/-- C5 (amended): for a sequence containing an `enforce_time_slot` and a
`veto_time_slot` constraint agreeing on the full `(course, week, day,
period)` key, `validate` returns `ok = false` and the error list contains
the contradiction error citing that course, day and period. -/
theorem contradiction_detection_same_key :
    ∀ (cs : List QueryConstraint) (inst : InputData)
      (c1 c2 : QueryConstraint),
      c1 ∈ cs → c2 ∈ cs →
      c1.query_type = .enforce_time_slot → c2.query_type = .veto_time_slot →
      constraintKey c1 = constraintKey c2 →
      (validate_query_constraints cs inst).1 = false ∧
      contradictionMsg (constraintKey c1) ∈
        (validate_query_constraints cs inst).2 := by
  intro cs inst c1 c2 h1 h2 ht1 ht2 hkey
  have he : constraintKey c1 ∈ enforceKeys cs := by
    rw [enforceKeys, mem_dedupKeys]
    exact List.mem_map_of_mem _
      (List.mem_filter.mpr ⟨h1, by simp [isEnforceClass, ht1]⟩)
  have hv : constraintKey c1 ∈ vetoKeys cs := by
    rw [vetoKeys, mem_dedupKeys, hkey]
    exact List.mem_map_of_mem _
      (List.mem_filter.mpr ⟨h2, by simp [isVetoClass, ht2]⟩)
  have hmem : contradictionMsg (constraintKey c1) ∈
      (validate_query_constraints cs inst).2 := by
    simp only [validate_query_constraints]
    exact List.mem_append_left _
      (List.mem_map_of_mem _ (List.mem_filter.mpr ⟨he, by simpa using hv⟩))
  exact ⟨(validate_fst_eq_isEmpty cs inst).trans (isEmpty_false_of_mem hmem), hmem⟩

/-- Witness for C5 (amended): a concrete enforce/veto pair on the same full
key is rejected with the contradiction error. -/
theorem contradiction_detection_same_key_witness :
    (validate_query_constraints
      [{ query_type := .enforce_time_slot, course_id := some "A",
         week := some 1, day := some "Mon", period_start := some 3 },
       { query_type := .veto_time_slot, course_id := some "A",
         week := some 1, day := some "Mon", period_start := some 3 }]
      { courses := [{ id := "A" }] }).1 = false ∧
    "Contradictory constraints: Cannot both enforce and veto A on Mon at period 3" ∈
      (validate_query_constraints
        [{ query_type := .enforce_time_slot, course_id := some "A",
           week := some 1, day := some "Mon", period_start := some 3 },
         { query_type := .veto_time_slot, course_id := some "A",
           week := some 1, day := some "Mon", period_start := some 3 }]
        { courses := [{ id := "A" }] }).2 :=
  contradiction_detection_same_key
    [{ query_type := .enforce_time_slot, course_id := some "A",
       week := some 1, day := some "Mon", period_start := some 3 },
     { query_type := .veto_time_slot, course_id := some "A",
       week := some 1, day := some "Mon", period_start := some 3 }]
    { courses := [{ id := "A" }] }
    { query_type := .enforce_time_slot, course_id := some "A",
      week := some 1, day := some "Mon", period_start := some 3 }
    { query_type := .veto_time_slot, course_id := some "A",
      week := some 1, day := some "Mon", period_start := some 3 }
    (by decide) (by decide) rfl rfl rfl

/-- C6 counterexample: a `veto_instructor_day` query for an instructor with
zero courses succeeds with the empty constraint sequence instead of failing
with `NoMatchingEntity`. -/
theorem veto_instructor_day_empty_expansion :
    parse_structured_query "veto_instructor_day"
      { instructor_id := some "I", day := some "Mon" } {} = .ok [] := rfl

/-- C6 (amended): a `veto_day` query given an `instructor_id` fails with
`NoMatchingEntity` when the instructor teaches zero courses and otherwise
yields one `veto_day` constraint per course taught; a `veto_instructor_day`
query never performs the zero-match check — it yields one `veto_day`
constraint per course taught, which is the empty sequence on zero matches. -/
theorem instructor_day_veto_expansion :
    (∀ (p : Params) (i : InputData),
       truthy p.course_id = false → truthy p.instructor_id = true →
       (i.courses.filter (fun c => c.instructor_id == p.instructor_id)).isEmpty
           = true →
       parse_structured_query "veto_day" p i =
         .error (.noMatchingEntity
           ("No courses found for instructor " ++ p.instructor_id.getD ""))) ∧
    (∀ (p : Params) (i : InputData),
       truthy p.course_id = false → truthy p.instructor_id = true →
       (i.courses.filter (fun c => c.instructor_id == p.instructor_id)).isEmpty
           = false →
       parse_structured_query "veto_day" p i =
         .ok ((i.courses.filter
             (fun c => c.instructor_id == p.instructor_id)).map (fun c =>
           { query_type := .veto_day, course_id := some c.id,
             day := p.day }))) ∧
    (∀ (p : Params) (i : InputData),
       truthy p.instructor_id = true → truthy p.day = true →
       parse_structured_query "veto_instructor_day" p i =
         .ok ((i.courses.filter
             (fun c => c.instructor_id == p.instructor_id)).map (fun c =>
           { query_type := .veto_day, course_id := some c.id,
             day := p.day }))) := by
  refine ⟨?_, ?_, ?_⟩
  · intro p i hc hi hempty
    have hstep : parse_structured_query "veto_day" p i =
        veto_day_branch p i := rfl
    rw [hstep, veto_day_branch]
    simp [hc, hi, hempty]
  · intro p i hc hi hempty
    have hstep : parse_structured_query "veto_day" p i =
        veto_day_branch p i := rfl
    rw [hstep, veto_day_branch]
    simp [hc, hi, hempty]
  · intro p i hi hd
    have hstep : parse_structured_query "veto_instructor_day" p i =
        veto_instructor_day_branch p i := rfl
    rw [hstep, veto_instructor_day_branch]
    simp [hi, hd]

/-- Witness for C6 (amended): zero matches fail for `veto_day` but expand
per-course for an instructor with one course via `veto_instructor_day`. -/
theorem instructor_day_veto_expansion_witness :
    parse_structured_query "veto_day" { instructor_id := some "I" } {} =
      .error (.noMatchingEntity "No courses found for instructor I") ∧
    parse_structured_query "veto_instructor_day"
        { instructor_id := some "I", day := some "Mon" }
        { courses := [{ id := "C1", instructor_id := some "I" },
                      { id := "C2", instructor_id := some "J" }] } =
      .ok [{ query_type := .veto_day, course_id := some "C1",
             day := some "Mon" }] := by
  constructor
  · exact instructor_day_veto_expansion.1 { instructor_id := some "I" } {}
      rfl rfl rfl
  · exact instructor_day_veto_expansion.2.2
      { instructor_id := some "I", day := some "Mon" }
      { courses := [{ id := "C1", instructor_id := some "I" },
                    { id := "C2", instructor_id := some "J" }] } rfl rfl

/-- C9 counterexample: a constraint whose course identifier is set to the
empty string — which is not in the instance's course set — passes
validation silently, because Python truthiness treats `""` as absent. -/
theorem empty_course_id_passes_silently :
    validate_query_constraints
      [{ query_type := .enforce_room, course_id := some "" }]
      { courses := [{ id := "A" }] } = (true, []) := by decide

/-- C9 (amended): every constraint whose course (resp. instructor)
identifier is set to a non-empty string absent from the instance's course
(resp. instructor) set makes `validate` return `ok = false` with an error
naming that identifier; an identifier set to the empty string is treated as
absent and is not checked. -/
theorem unknown_reference_errors :
    ∀ (cs : List QueryConstraint) (inst : InputData) (c : QueryConstraint),
      c ∈ cs →
      (∀ s, c.course_id = some s → s ≠ "" →
        s ∉ inst.courses.map Course.id →
        (validate_query_constraints cs inst).1 = false ∧
        ("Unknown course ID: " ++ s) ∈ (validate_query_constraints cs inst).2) ∧
      (∀ s, c.instructor_id = some s → s ≠ "" →
        s ∉ inst.instructors.map Instructor.id →
        (validate_query_constraints cs inst).1 = false ∧
        ("Unknown instructor ID: " ++ s) ∈
          (validate_query_constraints cs inst).2) := by
  intro cs inst c hc
  constructor
  · intro s hs hne hnotin
    have hmsg : ("Unknown course ID: " ++ s) ∈
        refErrorsFor (inst.courses.map Course.id)
          (inst.instructors.map Instructor.id) c := by
      simp only [refErrorsFor, hs]
      rw [if_pos ⟨hne, hnotin⟩]
      exact List.mem_append_left _ (List.mem_singleton_self _)
    have hmem : ("Unknown course ID: " ++ s) ∈
        (validate_query_constraints cs inst).2 := by
      simp only [validate_query_constraints]
      exact List.mem_append_right _ (List.mem_flatMap.mpr ⟨c, hc, hmsg⟩)
    exact ⟨(validate_fst_eq_isEmpty _ _).trans (isEmpty_false_of_mem hmem), hmem⟩
  · intro s hs hne hnotin
    have hmsg : ("Unknown instructor ID: " ++ s) ∈
        refErrorsFor (inst.courses.map Course.id)
          (inst.instructors.map Instructor.id) c := by
      simp only [refErrorsFor, hs]
      rw [if_pos ⟨hne, hnotin⟩]
      exact List.mem_append_right _ (List.mem_singleton_self _)
    have hmem : ("Unknown instructor ID: " ++ s) ∈
        (validate_query_constraints cs inst).2 := by
      simp only [validate_query_constraints]
      exact List.mem_append_right _ (List.mem_flatMap.mpr ⟨c, hc, hmsg⟩)
    exact ⟨(validate_fst_eq_isEmpty _ _).trans (isEmpty_false_of_mem hmem), hmem⟩

/-- Witness for C9 (amended): concrete unknown non-empty course and
instructor identifiers are both reported. -/
theorem unknown_reference_errors_witness :
    ("Unknown course ID: X" ∈
      (validate_query_constraints
        [{ query_type := .enforce_time_slot, course_id := some "X",
           instructor_id := some "Y" }]
        { courses := [{ id := "A" }], instructors := [{ id := "B" }] }).2) ∧
    ("Unknown instructor ID: Y" ∈
      (validate_query_constraints
        [{ query_type := .enforce_time_slot, course_id := some "X",
           instructor_id := some "Y" }]
        { courses := [{ id := "A" }], instructors := [{ id := "B" }] }).2) := by
  constructor
  · exact ((unknown_reference_errors
      [{ query_type := .enforce_time_slot, course_id := some "X",
         instructor_id := some "Y" }]
      { courses := [{ id := "A" }], instructors := [{ id := "B" }] }
      { query_type := .enforce_time_slot, course_id := some "X",
        instructor_id := some "Y" }
      (by decide)).1 "X" rfl (by decide) (by decide)).2
  · exact ((unknown_reference_errors
      [{ query_type := .enforce_time_slot, course_id := some "X",
         instructor_id := some "Y" }]
      { courses := [{ id := "A" }], instructors := [{ id := "B" }] }
      { query_type := .enforce_time_slot, course_id := some "X",
        instructor_id := some "Y" }
      (by decide)).2 "Y" rfl (by decide) (by decide)).2

/-- Helper: the scope-sharing test is exactly "some fixed keyword occurs in
both lowercased descriptions". -/
theorem constraints_share_scope_iff (a b : IISRecord) :
    constraints_share_scope a b = true ↔
      ∃ kw ∈ scope_keywords,
        strContains (a.description.getD "").toLower kw = true ∧
        strContains (b.description.getD "").toLower kw = true := by
  simp [constraints_share_scope, List.any_eq_true, Bool.and_eq_true]

/-- C7: reason-graph construction is total — one node per IIS record with
safe placeholders for missing `id`, `type` and `in_iis` fields, an edge for
an ordered pair `i < j` exactly when the two lowercased descriptions share
a keyword of the fixed vocabulary, and the empty IIS yields zero nodes and
zero edges. -/
theorem build_graph_of_reasons_total :
    ∀ (iis : List IISRecord) (q : String),
      (build_graph_of_reasons iis q).reasons.length = iis.length ∧
      (∀ i, i < iis.length →
        (build_graph_of_reasons iis q).reasons.getD i {} =
            reasonOf (iis.getD i {}) i ∧
        ((iis.getD i {}).id = none →
          ((build_graph_of_reasons iis q).reasons.getD i {}).id =
            "c" ++ toString i) ∧
        ((iis.getD i {}).type = none →
          ((build_graph_of_reasons iis q).reasons.getD i {}).type = "unknown") ∧
        ((iis.getD i {}).in_iis = none →
          ((build_graph_of_reasons iis q).reasons.getD i {}).in_iis = true)) ∧
      (build_graph_of_reasons iis q).edges =
        (List.range iis.length).flatMap (fun i =>
          ((List.range iis.length).drop (i + 1)).filterMap (fun j =>
            if (∃ kw ∈ scope_keywords,
                strContains ((iis.getD i {}).description.getD "").toLower kw
                    = true ∧
                strContains ((iis.getD j {}).description.getD "").toLower kw
                    = true) then
              some { src := nodeIdOf (iis.getD i {}) i,
                     dst := nodeIdOf (iis.getD j {}) j,
                     relationship := "shares_variables" }
            else none)) ∧
      (iis = [] → (build_graph_of_reasons iis q).reasons = [] ∧
        (build_graph_of_reasons iis q).edges = []) := by
  intro iis q
  have hgetD : ∀ i, i < iis.length →
      (build_graph_of_reasons iis q).reasons.getD i {} =
        reasonOf (iis.getD i {}) i := by
    intro i hi
    simp only [build_graph_of_reasons, List.getD, List.get?_eq_getElem?,
      List.getElem?_map, List.getElem?_range hi]
    rfl
  refine ⟨?_, ?_, ?_, ?_⟩
  · simp [build_graph_of_reasons]
  · intro i hi
    refine ⟨hgetD i hi, ?_, ?_, ?_⟩
    · intro hid
      rw [hgetD i hi]
      simp only [reasonOf, nodeIdOf]
      rw [hid]
      rfl
    · intro htype
      rw [hgetD i hi]
      simp only [reasonOf]
      rw [htype]
      rfl
    · intro hin
      rw [hgetD i hi]
      simp only [reasonOf]
      rw [hin]
      rfl
  · simp only [build_graph_of_reasons]
    refine congrArg _ (funext fun i => ?_)
    refine congrArg (fun f => List.filterMap f _) (funext fun j => ?_)
    exact if_congr (constraints_share_scope_iff _ _) rfl rfl
  · intro h
    subst h
    exact ⟨rfl, rfl⟩

/-- Witness for C7: applied to a concrete two-record IIS (one record with
every field missing) and to the empty IIS. -/
theorem build_graph_of_reasons_total_witness :
    (build_graph_of_reasons
      [{}, { id := some "c9", type := some "query_x",
             description := some "course B on Monday" }] "q").reasons.length
        = 2 ∧
    ((build_graph_of_reasons
      [{}, { id := some "c9", type := some "query_x",
             description := some "course B on Monday" }] "q").reasons.getD 0
        {}).id = "c0" ∧
    (build_graph_of_reasons [] "q").reasons = [] ∧
    (build_graph_of_reasons [] "q").edges = [] := by
  refine ⟨(build_graph_of_reasons_total
      [{}, { id := some "c9", type := some "query_x",
             description := some "course B on Monday" }] "q").1, ?_, ?_, ?_⟩
  · exact ((build_graph_of_reasons_total
      [{}, { id := some "c9", type := some "query_x",
             description := some "course B on Monday" }] "q").2.1 0
      (by decide)).2.1 rfl
  · exact ((build_graph_of_reasons_total [] "q").2.2.2 rfl).1
  · exact ((build_graph_of_reasons_total [] "q").2.2.2 rfl).2
